import Mathlib

/-!
Verification of the TLV (Type-Length-Value) record core of PcapPlusPlus
(`Packet++/header/TLVData.h`): the `TLVRecord` view class, the
`TLVRecordReader` traversal/search/count helper and the `TLVRecordBuilder`
declaration, embedded shallowly.

Modelling conventions:
- Pointers are `Int` addresses; the NULL pointer is the address `0`.
  Pointer subtraction (`ptrdiff_t`, 64-bit) never overflows for realistic
  addresses, so it is modelled as exact `Int` subtraction.
- The abstract virtual methods `getTotalSize()` / `getDataSize()` of a
  record (protocol variant policy) are modelled as functions
  `ts, ds : Int → Nat` of the record's address: a record's only state is
  its `m_Data` pointer, and the underlying buffer is fixed during a
  traversal, so the virtual call is a pure function of the address.
- Byte memory is a function `mem : Int → Nat` giving the byte stored at
  each address.
- The C cast `(int)x` of a `size_t` value, present in the bounds check of
  `getNextTLVRecord`, truncates to 32 bits and reinterprets as signed; it
  is modelled exactly by `toInt32`.
- `size_t` is 64 bits; the reader's cache field `m_RecordCount` holds a
  `size_t` value and `(size_t)-1` is its "no cache" sentinel.
- The C++ `while` loops of `getTLVRecord` and `getTLVRecordCount` are
  modelled with an explicit fuel argument; with every `getTotalSize()`
  value positive, a fuel of `tlvDataLen + 1` dominates the number of
  iterations the C++ loop performs.
-/

namespace pcpp

/-- The C cast `(int)x` applied to a `size_t` value `x`: the value is
reduced modulo 2^32 and reinterpreted in the signed 32-bit range. -/
def toInt32 (n : Nat) : Int :=
  if n % 4294967296 < 2147483648 then ((n % 4294967296 : Nat) : Int)
  else ((n % 4294967296 : Nat) : Int) - 4294967296

/-- A TLV record view: `m_Data` is the raw-data pointer (`TLVRawData*`).
`none` models the NULL pointer. -/
structure TLVRecord where
  m_Data : Option Int
deriving DecidableEq

/-- The constructor `TLVRecord(uint8_t* recordRawData)`: if the pointer is
NULL (address 0) then `m_Data` is set to NULL, otherwise it is set to the
given pointer. -/
def mkTLVRecord (recordRawData : Int) : TLVRecord :=
  if recordRawData = 0 then ⟨none⟩ else ⟨some recordRawData⟩

/-- `TLVRecord::isNull()`: true iff `m_Data == NULL`. -/
def TLVRecord.isNull (r : TLVRecord) : Bool :=
  r.m_Data.isNone

/-- `TLVRecord::getRecordBasePtr()`: the raw pointer value (`(uint8_t*)m_Data`,
which is the NULL pointer, numerically 0, on a null view). -/
def TLVRecord.getRecordBasePtr (r : TLVRecord) : Int :=
  r.m_Data.getD 0

/-- `TLVRecord::getType()`: reads `m_Data->recordType`, the byte at the
record's address. On a null view the C++ code dereferences the NULL
pointer — undefined behavior that produces no value — modelled as `none`;
the code contains no error report for this case. -/
def TLVRecord.getType (mem : Int → Nat) (r : TLVRecord) : Option Nat :=
  r.m_Data.map mem

/-- The first `n` bytes of `m_Data->recordValue` for a record at address
`addr`: in the `TLVRawData` struct the value bytes start at offset 2,
after the `recordType` and `recordLen` bytes. -/
def valueBytes (mem : Int → Nat) (addr : Int) (n : Nat) : List Nat :=
  (List.range n).map (fun i => mem (addr + 2 + (i : Int)))

/-- The integer obtained by `memcpy`-ing a byte list into a fixed-width
unsigned scalar on a little-endian host (the byte at the lowest address is
the least significant). -/
def decodeLE : List Nat → Nat
  | [] => 0
  | b :: bs => b + 256 * decodeLE bs

/-- `TLVRecord::getValueAs<T>()` for a scalar type of width `w = sizeof(T)`:
returns 0 when `getDataSize() < sizeof(T)`, otherwise the first `w` value
bytes copied into the result. On a null view the C++ code would dereference
NULL (no defined value), modelled as `none`. -/
def getValueAs (mem ds : Int → Nat) (w : Nat) (r : TLVRecord) : Option Nat :=
  match r.m_Data with
  | none => none
  | some addr =>
    if ds addr < w then some 0
    else some (decodeLE (valueBytes mem addr w))

/-- `TLVRecordReader::getFirstTLVRecord(tlvDataBasePtr, tlvDataLen)`:
returns a null record when `tlvDataLen == 0`, otherwise a record
constructed at `tlvDataBasePtr`. It consults no size policy at all: the
first record's declared size is not validated against `tlvDataLen`. -/
def getFirstTLVRecord (tlvDataBasePtr : Int) (tlvDataLen : Nat) : TLVRecord :=
  if tlvDataLen = 0 then mkTLVRecord 0
  else mkTLVRecord tlvDataBasePtr

/-- `TLVRecordReader::getNextTLVRecord(record, tlvDataBasePtr, tlvDataLen)`
for the size policy `ts`: null in, null out; null when the record pointer
precedes the buffer; null when
`offset + (int)totalSize >= (int)tlvDataLen` — note the two `(int)` casts
of the C++ source, modelled by `toInt32`; otherwise the record at
`recordBasePtr + totalSize`. -/
def getNextTLVRecord (ts : Int → Nat) (record : TLVRecord)
    (tlvDataBasePtr : Int) (tlvDataLen : Nat) : TLVRecord :=
  match record.m_Data with
  | none => mkTLVRecord 0
  | some addr =>
    if addr - tlvDataBasePtr < 0 then mkTLVRecord 0
    else if addr - tlvDataBasePtr + toInt32 (ts addr) ≥ toInt32 tlvDataLen then
      mkTLVRecord 0
    else mkTLVRecord (addr + (ts addr : Int))

/-- The `while (!curRec.isNull())` loop of
`TLVRecordReader::getTLVRecord`, fuel-indexed: return the current record
when its type byte equals `recordType`, otherwise advance with
`getNextTLVRecord`; a null record ends the scan with a null result. -/
def getTLVRecordLoop (ts mem : Int → Nat) (recordType : Nat)
    (tlvDataBasePtr : Int) (tlvDataLen : Nat) :
    Nat → TLVRecord → TLVRecord
  | 0, _ => mkTLVRecord 0
  | Nat.succ fuel, cur =>
    if cur.isNull then mkTLVRecord 0
    else if TLVRecord.getType mem cur = some recordType then cur
    else getTLVRecordLoop ts mem recordType tlvDataBasePtr tlvDataLen fuel
      (getNextTLVRecord ts cur tlvDataBasePtr tlvDataLen)

/-- `TLVRecordReader::getTLVRecord(recordType, tlvDataBasePtr, tlvDataLen)`:
linear scan from `getFirstTLVRecord` via repeated `getNextTLVRecord`. -/
def getTLVRecord (ts mem : Int → Nat) (recordType : Nat)
    (tlvDataBasePtr : Int) (tlvDataLen fuel : Nat) : TLVRecord :=
  getTLVRecordLoop ts mem recordType tlvDataBasePtr tlvDataLen fuel
    (getFirstTLVRecord tlvDataBasePtr tlvDataLen)

/-- The sequence of non-null records visited by a `first`/`next` traversal
starting from `cur`, fuel-indexed. This is the reference scan order used
to state first-match and counting properties. -/
def scanFrom (ts : Int → Nat) (tlvDataBasePtr : Int) (tlvDataLen : Nat) :
    Nat → TLVRecord → List TLVRecord
  | 0, _ => []
  | Nat.succ fuel, cur =>
    if cur.isNull then []
    else cur :: scanFrom ts tlvDataBasePtr tlvDataLen fuel
      (getNextTLVRecord ts cur tlvDataBasePtr tlvDataLen)

/-- The full scan order of a buffer: the visited non-null records starting
from `getFirstTLVRecord`. -/
def scanSeq (ts : Int → Nat) (tlvDataBasePtr : Int)
    (tlvDataLen fuel : Nat) : List TLVRecord :=
  scanFrom ts tlvDataBasePtr tlvDataLen fuel
    (getFirstTLVRecord tlvDataBasePtr tlvDataLen)

/-- The value `(size_t)-1` on a 64-bit platform: the reader's "no cached
count" sentinel. -/
def SIZE_MAX : Nat := 18446744073709551615

/-- `TLVRecordReader` state: the cached record count `m_RecordCount`
(a `size_t` value; `SIZE_MAX`, i.e. `(size_t)-1`, means "no cache"). -/
structure TLVRecordReader where
  m_RecordCount : Nat
deriving DecidableEq

/-- The default constructor `TLVRecordReader()`:
`m_RecordCount = (size_t)-1`. -/
def TLVRecordReader.fresh : TLVRecordReader :=
  ⟨SIZE_MAX⟩

/-- The counting `while` loop of `TLVRecordReader::getTLVRecordCount`,
fuel-indexed, with the running value of `m_RecordCount` as accumulator. -/
def getTLVRecordCountLoop (ts : Int → Nat) (tlvDataBasePtr : Int)
    (tlvDataLen : Nat) : Nat → TLVRecord → Nat → Nat
  | 0, _, acc => acc
  | Nat.succ fuel, cur, acc =>
    if cur.isNull then acc
    else getTLVRecordCountLoop ts tlvDataBasePtr tlvDataLen fuel
      (getNextTLVRecord ts cur tlvDataBasePtr tlvDataLen) (acc + 1)

/-- `TLVRecordReader::getTLVRecordCount(tlvDataBasePtr, tlvDataLen)`:
returns the cached count when `m_RecordCount != (size_t)-1`; otherwise
counts the records of a full `first`/`next` traversal, stores the result
in `m_RecordCount` and returns it. The result is the pair
(returned count, reader state after the call). -/
def getTLVRecordCount (ts : Int → Nat) (rd : TLVRecordReader)
    (tlvDataBasePtr : Int) (tlvDataLen fuel : Nat) : Nat × TLVRecordReader :=
  if rd.m_RecordCount ≠ SIZE_MAX then (rd.m_RecordCount, rd)
  else
    let c := getTLVRecordCountLoop ts tlvDataBasePtr tlvDataLen fuel
      (getFirstTLVRecord tlvDataBasePtr tlvDataLen) 0
    (c, ⟨c⟩)

/-- `TLVRecordReader::changeTLVRecordCount(int changedBy)`:
`if (m_RecordCount != (size_t)-1) m_RecordCount += changedBy;` — the
`int` delta is converted to `size_t` and added with `size_t` wraparound,
i.e. the cached value becomes `(m_RecordCount + changedBy) mod 2^64`. -/
def changeTLVRecordCount (rd : TLVRecordReader) (changedBy : Int) :
    TLVRecordReader :=
  if rd.m_RecordCount ≠ SIZE_MAX then
    ⟨(((rd.m_RecordCount : Int) + changedBy) % 18446744073709551616).toNat⟩
  else rd

/-- `TLVRecordBuilder` state relevant to record construction: the type tag
and the stored value length `m_RecValueLen`, a `uint8_t` field. -/
structure TLVRecordBuilder where
  m_RecType : Nat
  m_RecValueLen : Nat
deriving DecidableEq

/-- Construction of a `TLVRecordBuilder` from a raw value of arbitrary
length through the declared constructor
`TLVRecordBuilder(uint8_t recType, const uint8_t* recValue, uint8_t recValueLen)`:
both the type and the length arguments have type `uint8_t`, so a value
length above 255 is converted modulo 256 at the call boundary before the
builder ever sees it; no error path exists in the declared interface. -/
def mkTLVRecordBuilder (recType : Nat) (recValue : List Nat) :
    TLVRecordBuilder :=
  ⟨recType % 256, recValue.length % 256⟩

/-- A concrete four-record buffer for the search example: records of total
size 2 at addresses 100, 102, 104, 106 carrying the type tags 5, 9, 9, 2. -/
def memTags : Int → Nat :=
  fun a =>
    if a = 100 then 5
    else if a = 102 then 9
    else if a = 104 then 9
    else if a = 106 then 2
    else 0

/-! Helper lemmas shared by the claim theorems. -/

/-- Below 2^31 the cast `(int)x` of a `size_t` value is lossless. -/
theorem toInt32_eq_of_lt {n : Nat} (h : n < 2147483648) :
    toInt32 n = (n : Int) := by
  have hm : n % 4294967296 = n := Nat.mod_eq_of_lt (by omega)
  simp [toInt32, hm, h]

/-- Constructing a record from a non-NULL pointer stores that pointer. -/
theorem mkTLVRecord_of_ne {a : Int} (h : a ≠ 0) :
    mkTLVRecord a = ⟨some a⟩ := by
  simp [mkTLVRecord, h]

/-- A traversal with `fuel` steps visits at most `fuel` records. -/
theorem scanFrom_length_le (ts : Int → Nat) (b : Int) (l : Nat) :
    ∀ (fuel : Nat) (cur : TLVRecord),
      (scanFrom ts b l fuel cur).length ≤ fuel := by
  intro fuel
  induction fuel with
  | zero => intro cur; simp [scanFrom]
  | succ fuel ih =>
    intro cur
    by_cases hnull : cur.isNull
    · simp [scanFrom, hnull]
    · simp only [scanFrom, hnull, Bool.false_eq_true, if_false, List.length_cons]
      exact Nat.succ_le_succ (ih _)

/-- The counting loop of `getTLVRecordCount` computes the accumulator plus
the number of records visited by the corresponding traversal. -/
theorem getTLVRecordCountLoop_eq (ts : Int → Nat) (b : Int) (l : Nat) :
    ∀ (fuel : Nat) (cur : TLVRecord) (acc : Nat),
      getTLVRecordCountLoop ts b l fuel cur acc
        = acc + (scanFrom ts b l fuel cur).length := by
  intro fuel
  induction fuel with
  | zero => intro cur acc; simp [getTLVRecordCountLoop, scanFrom]
  | succ fuel ih =>
    intro cur acc
    by_cases hnull : cur.isNull
    · simp [getTLVRecordCountLoop, scanFrom, hnull]
    · simp only [getTLVRecordCountLoop, scanFrom, hnull, Bool.false_eq_true,
        if_false, List.length_cons, ih]
      omega

/-- The search loop of `getTLVRecord` returns the first record of the
traversal order whose type byte matches, and a null record when none
does. -/
theorem getTLVRecordLoop_eq_find (ts mem : Int → Nat) (t : Nat)
    (b : Int) (l : Nat) :
    ∀ (fuel : Nat) (cur : TLVRecord),
      getTLVRecordLoop ts mem t b l fuel cur
        = ((scanFrom ts b l fuel cur).find?
            (fun r => decide (TLVRecord.getType mem r = some t))).getD
            (mkTLVRecord 0) := by
  intro fuel
  induction fuel with
  | zero => intro cur; simp [getTLVRecordLoop, scanFrom]
  | succ fuel ih =>
    intro cur
    by_cases hnull : cur.isNull
    · simp [getTLVRecordLoop, scanFrom, hnull]
    · by_cases htype : TLVRecord.getType mem cur = some t
      · simp [getTLVRecordLoop, scanFrom, hnull, htype, List.find?]
      · simp [getTLVRecordLoop, scanFrom, hnull, htype, List.find?, ih]

/-! Claim theorems. -/

/-- C1, counterexample: the claim "getNextTLVRecord returns a null view
whenever offset(r) + totalSize(r) >= length" fails on the code. At
base = 1, record address 1 (offset 0), totalSize = 2^31 and length = 10 the
mathematical bound 0 + 2^31 >= 10 holds, yet the code returns a non-null
record: the cast `(int)totalSize` evaluates to -2^31, so the code's
comparison -2^31 >= 10 is false and the code advances. -/
theorem getNextTLVRecord_claim_counterexample :
    ((1 : Int) - 1 + ((2147483648 : Nat) : Int) ≥ ((10 : Nat) : Int)) ∧
    (getNextTLVRecord (fun _ => 2147483648) ⟨some 1⟩ 1 10).isNull = false := by
  constructor
  · decide
  · decide

/-- C1 (amended): for a non-null record at address `addr` over a buffer
`(tlvDataBasePtr, tlvDataLen)` with a non-null base pointer, provided
`totalSize` and `tlvDataLen` are below 2^31 (so that the `(int)` casts in
the code's bounds check are lossless), `getNextTLVRecord` returns a null
view if `offset < 0` or `offset + totalSize >= length` (a record flush
against the exact end of the buffer yields null), and otherwise a non-null
view at exactly `base + offset + totalSize`. -/
theorem getNextTLVRecord_spec (ts : Int → Nat) (tlvDataBasePtr addr : Int)
    (tlvDataLen : Nat) (hbase : 0 < tlvDataBasePtr)
    (hts : ts addr < 2147483648) (hlen : tlvDataLen < 2147483648) :
    ((addr - tlvDataBasePtr < 0 ∨
        addr - tlvDataBasePtr + (ts addr : Int) ≥ (tlvDataLen : Int)) →
      (getNextTLVRecord ts ⟨some addr⟩ tlvDataBasePtr tlvDataLen).isNull
        = true) ∧
    (0 ≤ addr - tlvDataBasePtr →
      addr - tlvDataBasePtr + (ts addr : Int) < (tlvDataLen : Int) →
      (getNextTLVRecord ts ⟨some addr⟩ tlvDataBasePtr tlvDataLen).m_Data
        = some (tlvDataBasePtr + (addr - tlvDataBasePtr) + (ts addr : Int))) := by
  have h1 : toInt32 (ts addr) = ((ts addr : Nat) : Int) := toInt32_eq_of_lt hts
  have h2 : toInt32 tlvDataLen = (tlvDataLen : Int) := toInt32_eq_of_lt hlen
  constructor
  · intro h
    by_cases hneg : addr - tlvDataBasePtr < 0
    · show (if addr - tlvDataBasePtr < 0 then mkTLVRecord 0
        else if addr - tlvDataBasePtr + toInt32 (ts addr)
            ≥ toInt32 tlvDataLen then mkTLVRecord 0
        else mkTLVRecord (addr + (ts addr : Int))).isNull = true
      rw [if_pos hneg]
      decide
    · have hge : addr - tlvDataBasePtr + toInt32 (ts addr)
          ≥ toInt32 tlvDataLen := by
        rw [h1, h2]
        rcases h with h | h
        · omega
        · exact h
      show (if addr - tlvDataBasePtr < 0 then mkTLVRecord 0
        else if addr - tlvDataBasePtr + toInt32 (ts addr)
            ≥ toInt32 tlvDataLen then mkTLVRecord 0
        else mkTLVRecord (addr + (ts addr : Int))).isNull = true
      rw [if_neg hneg, if_pos hge]
      decide
  · intro h0 hlt
    have hneg : ¬ addr - tlvDataBasePtr < 0 := by omega
    have hge : ¬ addr - tlvDataBasePtr + toInt32 (ts addr)
        ≥ toInt32 tlvDataLen := by
      rw [h1, h2]; omega
    have hne : addr + (ts addr : Int) ≠ 0 := by
      have : (0 : Int) ≤ (ts addr : Int) := Int.natCast_nonneg _
      omega
    show (if addr - tlvDataBasePtr < 0 then mkTLVRecord 0
      else if addr - tlvDataBasePtr + toInt32 (ts addr)
          ≥ toInt32 tlvDataLen then mkTLVRecord 0
      else mkTLVRecord (addr + (ts addr : Int))).m_Data
      = some (tlvDataBasePtr + (addr - tlvDataBasePtr) + (ts addr : Int))
    rw [if_neg hneg, if_neg hge, mkTLVRecord_of_ne hne]
    exact congrArg some (by omega)

/-- C1, witness: at base 1, record address 1, totalSize 2 and length 10 the
record is in bounds and the next record starts at base + offset +
totalSize = 3. -/
theorem getNextTLVRecord_spec_witness :
    (0 : Int) < 1 ∧ (2 : Nat) < 2147483648 ∧ (10 : Nat) < 2147483648 ∧
    (0 : Int) ≤ (1 : Int) - 1 ∧
    (1 : Int) - 1 + ((2 : Nat) : Int) < ((10 : Nat) : Int) ∧
    (getNextTLVRecord (fun _ => 2) ⟨some 1⟩ 1 10).m_Data
      = some (1 + ((1 : Int) - 1) + ((2 : Nat) : Int)) := by
  refine ⟨by decide, by decide, by decide, by decide, by decide, ?_⟩
  exact (getNextTLVRecord_spec (fun _ => 2) 1 1 10 (by decide) (by decide)
    (by decide)).2 (by decide) (by decide)

/-- C2: the bounds check of getNextTLVRecord is NOT evaluated in a width
that cannot wrap: the code casts both totalSize() and tlvDataLen to 32-bit
int. At base 1, record address 1 (offset 0), totalSize = 2^32 and
length = 10, the cast truncates 2^32 to 0, the code's comparison
0 + 0 >= 10 is false, and the code advances to address 1 + 2^32 even though
the untruncated comparison 0 + 2^32 >= 10 holds, i.e. the record ends far
past the buffer. -/
theorem boundsCheck_truncates :
    toInt32 4294967296 = 0 ∧
    ((1 : Int) - 1 + ((4294967296 : Nat) : Int) ≥ ((10 : Nat) : Int)) ∧
    (getNextTLVRecord (fun _ => 4294967296) ⟨some 1⟩ 1 10).m_Data
      = some 4294967297 := by
  refine ⟨by decide, by decide, by decide⟩

set_option maxRecDepth 8000 in
/-- C3: the declared constructor
`TLVRecordBuilder(uint8_t recType, const uint8_t* recValue, uint8_t recValueLen)`
takes its length as `uint8_t`, so a 300-byte value is silently stored with
length 300 mod 256 = 44; no ValueTooLarge rejection is possible through
this interface. -/
theorem builder_truncates :
    (List.replicate 300 (0 : Nat)).length = 300 ∧
    mkTLVRecordBuilder 7 (List.replicate 300 (0 : Nat))
      = ⟨7, 44⟩ := by
  refine ⟨by decide, by decide⟩

/-- C4: TLVRecord::getType on a null view does not report any error: it
executes `m_Data->recordType`, a NULL-pointer dereference (undefined
behavior, modelled as producing no value); the code has no
PreconditionViolation path. -/
theorem getType_null_no_error :
    (mkTLVRecord 0).isNull = true ∧
    TLVRecord.getType (fun _ => 7) (mkTLVRecord 0) = none := by
  refine ⟨by decide, by decide⟩

/-- C5: getTLVRecord is a linear scan from the first record via repeated
getNextTLVRecord returning the earliest visited record whose type byte
equals the requested tag, and a null view when no visited record matches;
in particular on the four-record buffer with tags [5, 9, 9, 2] the search
for tag 9 returns the record at scan index 1 (address 102), not the
duplicate at index 2 (address 104). -/
theorem getTLVRecord_first_match (ts mem : Int → Nat) (t : Nat)
    (tlvDataBasePtr : Int) (tlvDataLen fuel : Nat) :
    (getTLVRecord ts mem t tlvDataBasePtr tlvDataLen fuel
      = ((scanSeq ts tlvDataBasePtr tlvDataLen fuel).find?
          (fun r => decide (TLVRecord.getType mem r = some t))).getD
          (mkTLVRecord 0)) ∧
    getTLVRecord (fun _ => 2) memTags 9 100 8 9 = mkTLVRecord 102 ∧
    (scanSeq (fun _ => 2) 100 8 9)[1]? = some (mkTLVRecord 102) ∧
    (scanSeq (fun _ => 2) 100 8 9)[2]? = some (mkTLVRecord 104) ∧
    TLVRecord.getType memTags (mkTLVRecord 104) = some 9 := by
  refine ⟨?_, by decide, by decide, by decide, by decide⟩
  exact getTLVRecordLoop_eq_find ts mem t tlvDataBasePtr tlvDataLen fuel _

/-- C6: on an empty cache, getTLVRecordCount computes the number of
non-null records visited by a full first/next traversal, caches it and
returns it; a second call — with any buffer arguments at all, showing that
no traversal is performed — returns the same value and leaves the state
unchanged. -/
theorem getTLVRecordCount_caches (ts ts2 : Int → Nat)
    (tlvDataBasePtr b2 : Int) (tlvDataLen l2 fuel fuel2 : Nat)
    (rd : TLVRecordReader) (hfuel : fuel < SIZE_MAX)
    (hrd : rd.m_RecordCount = SIZE_MAX) :
    (getTLVRecordCount ts rd tlvDataBasePtr tlvDataLen fuel).1
      = (scanSeq ts tlvDataBasePtr tlvDataLen fuel).length ∧
    (getTLVRecordCount ts rd tlvDataBasePtr tlvDataLen fuel).2.m_RecordCount
      = (getTLVRecordCount ts rd tlvDataBasePtr tlvDataLen fuel).1 ∧
    getTLVRecordCount ts2
        (getTLVRecordCount ts rd tlvDataBasePtr tlvDataLen fuel).2 b2 l2 fuel2
      = ((getTLVRecordCount ts rd tlvDataBasePtr tlvDataLen fuel).1,
         (getTLVRecordCount ts rd tlvDataBasePtr tlvDataLen fuel).2) := by
  have hcount : getTLVRecordCount ts rd tlvDataBasePtr tlvDataLen fuel
      = ((scanSeq ts tlvDataBasePtr tlvDataLen fuel).length,
         ⟨(scanSeq ts tlvDataBasePtr tlvDataLen fuel).length⟩) := by
    simp [getTLVRecordCount, hrd, getTLVRecordCountLoop_eq, scanSeq]
  have hne : (scanSeq ts tlvDataBasePtr tlvDataLen fuel).length ≠ SIZE_MAX := by
    have hle := scanFrom_length_le ts tlvDataBasePtr tlvDataLen fuel
      (getFirstTLVRecord tlvDataBasePtr tlvDataLen)
    simp only [scanSeq]
    omega
  rw [hcount]
  refine ⟨rfl, rfl, ?_⟩
  simp [getTLVRecordCount, hne]

/-- C6, witness: a fresh reader over a two-record buffer counts 2 on the
first call, caches 2, and a second call with different buffer arguments
returns 2 from the cache. -/
theorem getTLVRecordCount_caches_witness :
    (3 : Nat) < SIZE_MAX ∧
    TLVRecordReader.fresh.m_RecordCount = SIZE_MAX ∧
    getTLVRecordCount (fun _ => 7)
        (getTLVRecordCount (fun _ => 1) TLVRecordReader.fresh 1 2 3).2 5 7 0
      = ((getTLVRecordCount (fun _ => 1) TLVRecordReader.fresh 1 2 3).1,
         (getTLVRecordCount (fun _ => 1) TLVRecordReader.fresh 1 2 3).2) ∧
    (getTLVRecordCount (fun _ => 1) TLVRecordReader.fresh 1 2 3).1 = 2 := by
  refine ⟨by decide, by decide, ?_, by decide⟩
  exact (getTLVRecordCount_caches (fun _ => 1) (fun _ => 7) 1 5 2 7 3 0
    TLVRecordReader.fresh (by decide) rfl).2.2

/-- C7, counterexample: the claim "after adjustCount(d) a subsequent
count() returns c + d without re-scanning" fails for cached count 0 and
delta -1: the size_t addition wraps to (size_t)-1, which is the "no cache"
sentinel, so the next count() re-scans and returns the scan result (2 on
this two-record buffer) instead of 0 + (-1). -/
theorem changeTLVRecordCount_counterexample :
    (⟨0⟩ : TLVRecordReader).m_RecordCount = 0 ∧ (0 : Nat) ≠ SIZE_MAX ∧
    (changeTLVRecordCount ⟨0⟩ (-1)).m_RecordCount = SIZE_MAX ∧
    (getTLVRecordCount (fun _ => 1) (changeTLVRecordCount ⟨0⟩ (-1)) 1 2 3).1
      = 2 := by
  refine ⟨by decide, by decide, by decide, by decide⟩

/-- C7 (amended): changeTLVRecordCount adds the delta to the cached count
with size_t wraparound; provided the adjusted value c + d is nonnegative
and below (size_t)-1 (so that it does not hit the "no cache" sentinel — see
C10), a subsequent getTLVRecordCount returns c + d from the cache without
re-scanning; on a reader with no cache, changeTLVRecordCount is a no-op. -/
theorem changeTLVRecordCount_adjust (c : Nat) (d : Int) (ts : Int → Nat)
    (b : Int) (l fuel : Nat) (rd0 : TLVRecordReader)
    (hc : c ≠ SIZE_MAX) (h0 : 0 ≤ (c : Int) + d)
    (h1 : (c : Int) + d < (SIZE_MAX : Int))
    (hrd0 : rd0.m_RecordCount = SIZE_MAX) :
    (changeTLVRecordCount ⟨c⟩ d).m_RecordCount = ((c : Int) + d).toNat ∧
    getTLVRecordCount ts (changeTLVRecordCount ⟨c⟩ d) b l fuel
      = (((c : Int) + d).toNat, changeTLVRecordCount ⟨c⟩ d) ∧
    changeTLVRecordCount rd0 d = rd0 := by
  have hSM : SIZE_MAX = 18446744073709551615 := rfl
  have hM : ((c : Int) + d) % 18446744073709551616 = (c : Int) + d :=
    Int.emod_eq_of_lt h0 (by omega)
  have hch : changeTLVRecordCount ⟨c⟩ d = ⟨((c : Int) + d).toNat⟩ := by
    simp [changeTLVRecordCount, hc, hM]
  have hne : ((c : Int) + d).toNat ≠ SIZE_MAX := by omega
  refine ⟨by rw [hch], ?_, by simp [changeTLVRecordCount, hrd0]⟩
  rw [hch]
  simp [getTLVRecordCount, hne]

/-- C7, witness: adjusting a cached count of 5 by +3 makes the next
count() call return 8 from the cache, with the state unchanged. -/
theorem changeTLVRecordCount_adjust_witness :
    (5 : Nat) ≠ SIZE_MAX ∧ (0 : Int) ≤ (5 : Int) + 3 ∧
    (5 : Int) + 3 < (SIZE_MAX : Int) ∧
    TLVRecordReader.fresh.m_RecordCount = SIZE_MAX ∧
    getTLVRecordCount (fun _ => 1) (changeTLVRecordCount ⟨5⟩ 3) 1 2 3
      = (((5 : Int) + 3).toNat, changeTLVRecordCount ⟨5⟩ 3) := by
  refine ⟨by decide, by decide, by decide, by decide, ?_⟩
  exact (changeTLVRecordCount_adjust 5 3 (fun _ => 1) 1 2 3
    TLVRecordReader.fresh (by decide) (by decide) (by decide) rfl).2.1

/-- C8: getFirstTLVRecord returns a null view when the buffer length is 0
and otherwise the record constructed at the base pointer; it consults no
size policy, so the first record's declared size is not validated against
the buffer length. -/
theorem getFirstTLVRecord_spec (tlvDataBasePtr : Int) (tlvDataLen : Nat) :
    (getFirstTLVRecord tlvDataBasePtr 0).isNull = true ∧
    getFirstTLVRecord tlvDataBasePtr tlvDataLen
      = (if tlvDataLen = 0 then mkTLVRecord 0
         else mkTLVRecord tlvDataBasePtr) ∧
    getFirstTLVRecord 77 5 = mkTLVRecord 77 := by
  refine ⟨rfl, rfl, by decide⟩

/-- C9: getValueAs on a non-null record with a scalar width `w` returns 0
when getDataSize() is below `w` (the documented short-read fallback — a
value, not a failure) and otherwise the first `w` value bytes copied into
the scalar. -/
theorem getValueAs_spec (mem ds : Int → Nat) (w : Nat) (addr : Int) :
    (ds addr < w → getValueAs mem ds w ⟨some addr⟩ = some 0) ∧
    (w ≤ ds addr →
      getValueAs mem ds w ⟨some addr⟩
        = some (decodeLE (valueBytes mem addr w))) := by
  constructor
  · intro h
    simp [getValueAs, h]
  · intro h
    simp [getValueAs, Nat.not_lt.mpr h]

/-- C9, witness: reading a 4-byte scalar out of a record whose value is
only 2 bytes long returns 0, not a fault. -/
theorem getValueAs_spec_witness :
    (2 : Nat) < 4 ∧
    getValueAs (fun _ => 7) (fun _ => 2) 4 ⟨some 10⟩ = some 0 := by
  exact ⟨by decide, (getValueAs_spec (fun _ => 7) (fun _ => 2) 4 10).1
    (by decide)⟩

/-- C10: the cached-count sentinel collides with reachable cache values:
when a cached count c is adjusted by a delta d such that c + d wraps to
(size_t)-1 (for example c = 0, d = -1), the cache silently becomes the
"no cache" sentinel and the next getTLVRecordCount performs a full re-scan
instead of returning the adjusted value; for any adjustment that does not
wrap to the sentinel, the adjusted value is returned from the cache. -/
theorem cacheSentinelCollision (c c2 : Nat) (d d2 : Int) (ts : Int → Nat)
    (b : Int) (l fuel : Nat)
    (_hc : c ≠ SIZE_MAX)
    (hcoll : ((c : Int) + d) % 18446744073709551616 = (SIZE_MAX : Int))
    (hc2 : c2 ≠ SIZE_MAX)
    (hncoll : ((c2 : Int) + d2) % 18446744073709551616 ≠ (SIZE_MAX : Int)) :
    (changeTLVRecordCount ⟨c⟩ d).m_RecordCount = SIZE_MAX ∧
    (getTLVRecordCount ts (changeTLVRecordCount ⟨c⟩ d) b l fuel).1
      = (scanSeq ts b l fuel).length ∧
    getTLVRecordCount ts (changeTLVRecordCount ⟨c2⟩ d2) b l fuel
      = ((((c2 : Int) + d2) % 18446744073709551616).toNat,
         changeTLVRecordCount ⟨c2⟩ d2) := by
  have hSM : SIZE_MAX = 18446744073709551615 := rfl
  have hch : changeTLVRecordCount ⟨c⟩ d = ⟨SIZE_MAX⟩ := by
    simp [changeTLVRecordCount, hcoll, hSM]
  have hch2 : changeTLVRecordCount ⟨c2⟩ d2
      = ⟨(((c2 : Int) + d2) % 18446744073709551616).toNat⟩ := by
    simp [changeTLVRecordCount, hc2]
  have h0 : 0 ≤ ((c2 : Int) + d2) % 18446744073709551616 :=
    Int.emod_nonneg _ (by decide)
  have hlt : ((c2 : Int) + d2) % 18446744073709551616
      < 18446744073709551616 :=
    Int.emod_lt_of_pos _ (by decide)
  have hne2 : (((c2 : Int) + d2) % 18446744073709551616).toNat
      ≠ SIZE_MAX := by omega
  refine ⟨by rw [hch], ?_, ?_⟩
  · rw [hch]
    simp [getTLVRecordCount, getTLVRecordCountLoop_eq, scanSeq, SIZE_MAX]
  · rw [hch2]
    simp [getTLVRecordCount, hne2]

/-- C10, witness: cached count 0 adjusted by -1 wraps to the sentinel and
the next count() re-scans the two-record buffer, returning 2; cached count
5 adjusted by +3 returns 8 from the cache. -/
theorem cacheSentinelCollision_witness :
    (0 : Nat) ≠ SIZE_MAX ∧
    ((0 : Int) + (-1)) % 18446744073709551616 = (SIZE_MAX : Int) ∧
    (5 : Nat) ≠ SIZE_MAX ∧
    ((5 : Int) + 3) % 18446744073709551616 ≠ (SIZE_MAX : Int) ∧
    (getTLVRecordCount (fun _ => 1) (changeTLVRecordCount ⟨0⟩ (-1)) 1 2 3).1
      = (scanSeq (fun _ => 1) 1 2 3).length ∧
    (scanSeq (fun _ => 1) 1 2 3).length = 2 := by
  refine ⟨by decide, by decide, by decide, by decide, ?_, by decide⟩
  exact (cacheSentinelCollision 0 5 (-1) 3 (fun _ => 1) 1 2 3 (by decide)
    (by decide) (by decide) (by decide)).2.1

end pcpp
